import Mathlib

/-! ## passport-http-custom-bearer — verification of lib/strategy.js

Shallow embedding of the bearer-token strategy in `lib/strategy.js`.
JS strings are modelled as Lean `String` (a wrapper around `List Char`);
a JS value that may be `undefined` is an `Option`; JS truthiness of a
string-valued slot is "present and non-empty".  Request header/body/query
objects are association lists with unique keys (as JS objects have).
-/

namespace CustomBearer

/-- JS `str.split(sep)` for a one-character separator, on the character
list: every occurrence of `sep` separates, empty segments are kept, and
the empty string splits into `[""]` — exactly ECMAScript semantics for
`"…".split(' ')` as used on line 117 of `strategy.js`. -/
def jsSplitAux (sep : Char) : List Char → List (List Char)
  | [] => [[]]
  | c :: rest =>
    match jsSplitAux sep rest with
    | [] => [[]]
    | h :: t => if c = sep then [] :: h :: t else (c :: h) :: t

/-- JS `str.split(sep)` lifted to `String`. -/
def jsSplit (s : String) (sep : Char) : List String :=
  (jsSplitAux sep s.data).map String.mk

/-- JS `str.toLowerCase()` (ASCII case mapping, which is all the
strategy ever feeds it). -/
def jsToLower (s : String) : String :=
  String.mk (s.data.map Char.toLower)

/-- JS replace with the anchored case-insensitive regex on line 73 that
deletes a leading `X-` marker: drop the first two characters when they
are `X` or `x` followed by a dash; otherwise the string is unchanged. -/
def stripX (s : String) : String :=
  match s.data with
  | x :: '-' :: rest => if x = 'X' ∨ x = 'x' then String.mk rest else s
  | _ => s

/-- Property read `obj[k]` on a JS object modelled as an association
list: the value at the first matching key, `none` when absent. -/
def jsGet (m : List (String × String)) (k : String) : Option String :=
  (m.find? (fun p => p.1 == k)).map (fun p => p.2)

/-- The guarded truthy read `obj && obj[k]` used on lines 116/130/135:
the whole map may be `undefined`, and a present-but-empty string value
is falsy, hence treated as absent. -/
def truthyLookup (m : Option (List (String × String))) (k : String) : Option String :=
  match m with
  | none => none
  | some l =>
    match jsGet l k with
    | none => none
    | some v => if v = "" then none else some v

/-- Property write `obj[k] = v` on a JS object: overwrite the entry in
place when the key exists, else append (JS objects keep insertion
order and have unique keys). -/
def setKey : List (String × String) → String → String → List (String × String)
  | [], k, v => [(k, v)]
  | p :: t, k, v => if p.1 = k then (k, v) :: t else p :: setKey t k v

/-- JS `arr.join(sep)` from line 175. -/
def jsJoin (sep : String) : List String → String
  | [] => ""
  | [x] => x
  | x :: y :: t => x ++ sep ++ jsJoin sep (y :: t)

/-- The constructor options object.  `scope` may be a single string or
an array (line 90); every field may be absent. -/
structure Options where
  realm : Option String
  scope : Option (Sum String (List String))
  headerName : Option String
  bodyName : Option String
  queryName : Option String

/-- The empty options object `{}`. -/
def Options.empty : Options := ⟨none, none, none, none, none⟩

/-- The resolved immutable strategy state set up by the constructor
(`this._realm`, `this._scope`, `this._headerName`, `this._bodyName`,
`this._queryName`). -/
structure Config where
  realm : String
  scope : Option (List String)
  headerName : String
  bodyName : String
  queryName : String
deriving DecidableEq

/-- The inner helper `getCustomHeaders(options, which)` (lines 70-78):
if the requested option is present and truthy, strip a leading
case-insensitive `X-`, lower-case, and for the header name re-apply the
`x-` marker.  Returns `none` when the option is absent or falsy (the JS
function falls through and returns `undefined`). -/
def getCustomHeaders (field : Option String) (isHeaderName : Bool) : Option String :=
  match field with
  | none => none
  | some v =>
    if v = "" then none
    else
      let f := jsToLower (stripX v)
      some (if isHeaderName then "x-" ++ f else f)

/-- JS `a || d` for an optional string `a`: the default applies when
`a` is `undefined` or the empty string. -/
def jsOrDefault (r : Option String) (d : String) : String :=
  match r with
  | none => d
  | some s => if s = "" then d else s

/-- Resolution of `this._headerName` (line 93):
`getCustomHeaders(options, 'headerName') || 'authorization'`. -/
def resolveHeaderName (o : Option String) : String :=
  jsOrDefault (getCustomHeaders o true) "authorization"

/-- Resolution of `this._bodyName` / `this._queryName` (lines 94-95):
`getCustomHeaders(options, which) || 'access_token'`. -/
def resolveFieldName (o : Option String) : String :=
  jsOrDefault (getCustomHeaders o false) "access_token"

/-- Resolution of `this._scope` (lines 89-91): only set when
`options.scope` is truthy; a single string is wrapped in a one-element
array, an array (even empty — arrays are truthy) is kept as is. -/
def resolveScope : Option (Sum String (List String)) → Option (List String)
  | none => none
  | some (Sum.inl s) => if s = "" then none else some [s]
  | some (Sum.inr l) => some l

/-- The constructor body (lines 85-97) as a map from options to the
resolved configuration. -/
def mkConfig (o : Options) : Config :=
  ⟨jsOrDefault o.realm "Users",
   resolveScope o.scope,
   resolveHeaderName o.headerName,
   resolveFieldName o.bodyName,
   resolveFieldName o.queryName⟩

/-- Configuration produced by `new Strategy({}, verify)`. -/
def defaultConfig : Config := mkConfig Options.empty

/-- A request as `authenticate` sees it: each of the three maps may be
absent altogether (`req.headers`, `req.body`, `req.query`). -/
structure Request where
  headers : Option (List (String × String))
  body : Option (List (String × String))
  query : Option (List (String × String))

/-- Strategy.prototype._challenge (lines 172-188): start from
`Bearer realm="…"`, then append scope (when `this._scope` is set),
error code (when truthy), error_description and error_uri (when
present and non-empty), in that order. -/
def challenge (cfg : Config) (code desc uri : Option String) : String :=
  let c := "Bearer realm=\"" ++ cfg.realm ++ "\""
  let c :=
    match cfg.scope with
    | some sc => c ++ ", scope=\"" ++ jsJoin " " sc ++ "\""
    | none => c
  let c :=
    match code with
    | some cd => if cd = "" then c else c ++ ", error=\"" ++ cd ++ "\""
    | none => c
  let c :=
    match desc with
    | some d => if d = "" then c else c ++ ", error_description=\"" ++ d ++ "\""
    | none => c
  match uri with
  | some u => if u = "" then c else c ++ ", error_uri=\"" ++ u ++ "\""
  | none => c

/-- Outcome of one run of `Strategy.prototype.authenticate` up to the
point where control leaves the locator: an early `this.fail(400)`, a
`this.fail(challenge)` for a missing credential, or the call into the
verify callback with the located token. -/
inductive AuthResult where
  | fail400 : AuthResult
  | failChallenge (ch : String) : AuthResult
  | verify (token : String) : AuthResult
deriving DecidableEq

/-- Line 140: `if (!token) { return this.fail(this._challenge()); }`,
else the verify callback is invoked with the token.  The JS `token`
variable is falsy exactly when it is still unset or the empty string,
which the model tracks as `""`. -/
def finishLocate (cfg : Config) (token : String) : AuthResult :=
  if token = "" then AuthResult.failChallenge (challenge cfg none none none)
  else AuthResult.verify token

/-- Lines 135-138: the query check.  A truthy query value conflicts
with an already-set token (`this.fail(400)`), else becomes the token. -/
def queryCheck (cfg : Config) (req : Request) (token : String) : AuthResult :=
  match truthyLookup req.query cfg.queryName with
  | some v => if token = "" then finishLocate cfg v else AuthResult.fail400
  | none => finishLocate cfg token

/-- Lines 130-133: the body check, same conflict rule as the query
check, then control falls through to the query check. -/
def bodyCheck (cfg : Config) (req : Request) (token : String) : AuthResult :=
  match truthyLookup req.body cfg.bodyName with
  | some v => if token = "" then queryCheck cfg req v else AuthResult.fail400
  | none => queryCheck cfg req token

/-- Strategy.prototype.authenticate, lines 113-140 (the credential
locator): the header value, when present and truthy, is split on a
space; any part count other than two is an immediate `fail(400)`;
a two-part value with case-insensitive scheme `Bearer` sets the token
to the credentials part, any other scheme leaves it unset; then body
and query are checked in order. -/
def authenticate (cfg : Config) (req : Request) : AuthResult :=
  match truthyLookup req.headers cfg.headerName with
  | some hv =>
    match jsSplit hv ' ' with
    | [scheme, credentials] =>
      bodyCheck cfg req (if jsToLower scheme = "bearer" then credentials else "")
    | _ => AuthResult.fail400
  | none => bodyCheck cfg req ""

/-- Result of the `verified` callback (lines 144-158): `self.error`,
`self.fail(challenge)`, or `self.success(user, info)`.  The `info`
argument can be a plain string or an object, hence the sum. -/
inductive VerifyOutcome where
  | error (e : String) : VerifyOutcome
  | fail (ch : String) : VerifyOutcome
  | success (user : String) (info : Sum String (List (String × String))) : VerifyOutcome
deriving DecidableEq

/-- Lines 153-155: the three resolved field names are written into the
info object before `self.success`. -/
def augmentInfo (cfg : Config) (m : List (String × String)) : List (String × String) :=
  setKey (setKey (setKey m "headerName" cfg.headerName) "bodyName" cfg.bodyName)
    "queryName" cfg.queryName

/-- Lines 147-151: falsy user.  A string info was replaced by
`{ message: info }`, so the challenge description is the string itself,
or for an object the `message` property; the error code is the fixed
`'invalid_token'`. -/
def rejectOutcome (cfg : Config) (info0 : Sum String (List (String × String))) : VerifyOutcome :=
  let msg : Option String :=
    match info0 with
    | Sum.inl s => some s
    | Sum.inr m => jsGet m "message"
  VerifyOutcome.fail (challenge cfg (some "invalid_token") msg none)

/-- Lines 147-157 after the error check: a falsy user (absent, `false`,
or an empty string) rejects; a truthy user succeeds with the augmented
info.  Assigning properties to a primitive string is a silent no-op in
JS, so a string info reaches `success` unchanged. -/
def acceptOrReject (cfg : Config) (user : Option String)
    (info0 : Sum String (List (String × String))) : VerifyOutcome :=
  match user with
  | none => rejectOutcome cfg info0
  | some u =>
    if u = "" then rejectOutcome cfg info0
    else
      match info0 with
      | Sum.inl s => VerifyOutcome.success u (Sum.inl s)
      | Sum.inr m => VerifyOutcome.success u (Sum.inr (augmentInfo cfg m))

/-- The result handler `verified(err, user, info)` (lines 144-158).
Line 145 `info = info || {}` replaces an absent or falsy (empty-string)
info with an empty object before anything else; a truthy `err` short-
circuits to `self.error(err)`. -/
def verified (cfg : Config) (err : Option String) (user : Option String)
    (info : Option (Sum String (List (String × String)))) : VerifyOutcome :=
  let info0 : Sum String (List (String × String)) :=
    match info with
    | none => Sum.inr []
    | some (Sum.inl s) => if s = "" then Sum.inr [] else Sum.inl s
    | some (Sum.inr m) => Sum.inr m
  match err with
  | some e => if e = "" then acceptOrReject cfg user info0 else VerifyOutcome.error e
  | none => acceptOrReject cfg user info0

/-- Spec-side reformulation of the challenge grammar of RFC 6750 §3 as
the spec states it: the mandatory realm production followed by the
optional scope, error, error_description and error_uri fields in that
fixed order, each bracketed field contributing nothing when absent or
empty. -/
def challengeSpec (cfg : Config) (code desc uri : Option String) : String :=
  "Bearer realm=\"" ++ cfg.realm ++ "\""
    ++ (match cfg.scope with
        | some sc => ", scope=\"" ++ jsJoin " " sc ++ "\""
        | none => "")
    ++ (match code with
        | some cd => if cd = "" then "" else ", error=\"" ++ cd ++ "\""
        | none => "")
    ++ (match desc with
        | some d => if d = "" then "" else ", error_description=\"" ++ d ++ "\""
        | none => "")
    ++ (match uri with
        | some u => if u = "" then "" else ", error_uri=\"" ++ u ++ "\""
        | none => "")

/-- A located non-empty Bearer credential in the header. -/
def headerCandidate (cfg : Config) (req : Request) : Prop :=
  ∃ v s c, truthyLookup req.headers cfg.headerName = some v ∧
    jsSplit v ' ' = [s, c] ∧ jsToLower s = "bearer" ∧ c ≠ ""

/-- A non-empty credential in the configured body field. -/
def bodyCandidate (cfg : Config) (req : Request) : Prop :=
  ∃ v, truthyLookup req.body cfg.bodyName = some v

/-- A non-empty credential in the configured query field. -/
def queryCandidate (cfg : Config) (req : Request) : Prop :=
  ∃ v, truthyLookup req.query cfg.queryName = some v

/-- The header contributes no token candidate without raising an error:
it is absent or falsy, or it splits into exactly two parts that carry a
non-Bearer scheme or an empty credentials part. -/
def headerYieldsNothing (cfg : Config) (req : Request) : Prop :=
  truthyLookup req.headers cfg.headerName = none ∨
  ∃ v s c, truthyLookup req.headers cfg.headerName = some v ∧
    jsSplit v ' ' = [s, c] ∧ (jsToLower s ≠ "bearer" ∨ c = "")

/-- A value returned by the guarded truthy read is never the empty
string. -/
theorem truthyLookup_ne_empty {m : Option (List (String × String))} {k v : String}
    (h : truthyLookup m k = some v) : v ≠ "" := by
  unfold truthyLookup at h
  split at h
  · exact Option.noConfusion h
  · split at h
    · exact Option.noConfusion h
    · split at h
      · exact Option.noConfusion h
      · next hne => injection h with h2; subst h2; exact hne

/-- Reading an association list at a key after a cons. -/
theorem jsGet_cons (p : String × String) (t : List (String × String)) (k : String) :
    jsGet (p :: t) k = if p.1 = k then some p.2 else jsGet t k := by
  by_cases hp : p.1 = k <;> simp [jsGet, List.find?_cons, hp]

/-- Writing a key then reading it back yields the written value. -/
theorem jsGet_setKey_self (m : List (String × String)) (k v : String) :
    jsGet (setKey m k v) k = some v := by
  induction m with
  | nil => simp [setKey, jsGet_cons, jsGet]
  | cons p t ih =>
    by_cases hp : p.1 = k
    · simp [setKey, hp, jsGet_cons]
    · simp [setKey, hp, jsGet_cons, ih]

/-- Writing one key leaves every other key unchanged. -/
theorem jsGet_setKey_ne (m : List (String × String)) (k v k' : String) (h : k' ≠ k) :
    jsGet (setKey m k v) k' = jsGet m k' := by
  induction m with
  | nil => simp [setKey, jsGet_cons, jsGet, Ne.symm h]
  | cons p t ih =>
    by_cases hp : p.1 = k
    · subst hp
      simp [setKey, jsGet_cons, Ne.symm h]
    · simp [setKey, hp, jsGet_cons, ih]

/-- A string starting with the re-applied marker is never empty. -/
theorem x_append_ne_empty (g : String) : ("x-" ++ g) ≠ "" := by
  intro h
  have h2 : 'x' :: '-' :: g.data = [] := congrArg String.data h
  exact List.noConfusion h2

/-- A set token conflicts with any body or query credential. -/
theorem bodyCheck_fail400_of_token (cfg : Config) (req : Request) (token : String)
    (ht : token ≠ "") (h : bodyCandidate cfg req ∨ queryCandidate cfg req) :
    bodyCheck cfg req token = AuthResult.fail400 := by
  rcases h with ⟨b, hb⟩ | ⟨q, hq⟩
  · simp only [bodyCheck, hb]
    rw [if_neg ht]
  · rcases hB : truthyLookup req.body cfg.bodyName with _ | b
    · simp only [bodyCheck, hB, queryCheck, hq]
      rw [if_neg ht]
    · simp only [bodyCheck, hB]
      rw [if_neg ht]

/-- Credentials in both body and query conflict whatever the header
contributed. -/
theorem bodyCheck_fail400_of_both (cfg : Config) (req : Request) (token : String)
    (hb : bodyCandidate cfg req) (hq : queryCandidate cfg req) :
    bodyCheck cfg req token = AuthResult.fail400 := by
  obtain ⟨b, hB⟩ := hb
  obtain ⟨q, hQ⟩ := hq
  simp only [bodyCheck, hB]
  by_cases ht : token = ""
  · rw [if_pos ht]
    simp only [queryCheck, hQ]
    rw [if_neg (truthyLookup_ne_empty hB)]
  · rw [if_neg ht]

/-- C1: a request supplying a non-empty credential in two or more of
the three locations (a valid Bearer-scheme header candidate, the
configured body field, the configured query field) is rejected with
fail(400); the verify callback is not reached. -/
theorem conflicting_locations_fail400 (cfg : Config) (req : Request)
    (h : (headerCandidate cfg req ∧ bodyCandidate cfg req) ∨
         (headerCandidate cfg req ∧ queryCandidate cfg req) ∨
         (bodyCandidate cfg req ∧ queryCandidate cfg req)) :
    authenticate cfg req = AuthResult.fail400 := by
  rcases h with ⟨⟨v, s, c, hv, hs, hber, hc⟩, hb⟩ | ⟨⟨v, s, c, hv, hs, hber, hc⟩, hq⟩ |
    ⟨hb, hq⟩
  · simp only [authenticate, hv, hs]
    rw [if_pos hber]
    exact bodyCheck_fail400_of_token cfg req c hc (Or.inl hb)
  · simp only [authenticate, hv, hs]
    rw [if_pos hber]
    exact bodyCheck_fail400_of_token cfg req c hc (Or.inr hq)
  · rcases hH : truthyLookup req.headers cfg.headerName with _ | w
    · simp only [authenticate, hH]
      exact bodyCheck_fail400_of_both cfg req "" hb hq
    · rcases hs : jsSplit w ' ' with _ | ⟨a, _ | ⟨b2, _ | _⟩⟩ <;>
        (simp only [authenticate, hH, hs]; try rfl)
      exact bodyCheck_fail400_of_both cfg req _ hb hq

/-- C1 witness: body and query both carry a token, rejected 400. -/
theorem conflicting_locations_fail400_wit :
    (bodyCandidate defaultConfig
        ⟨none, some [("access_token", "t1")], some [("access_token", "t2")]⟩ ∧
     queryCandidate defaultConfig
        ⟨none, some [("access_token", "t1")], some [("access_token", "t2")]⟩) ∧
    authenticate defaultConfig
        ⟨none, some [("access_token", "t1")], some [("access_token", "t2")]⟩ =
      AuthResult.fail400 :=
  ⟨⟨⟨"t1", by decide⟩, ⟨"t2", by decide⟩⟩,
   conflicting_locations_fail400 _ _
     (Or.inr (Or.inr ⟨⟨"t1", by decide⟩, ⟨"t2", by decide⟩⟩))⟩

/-- C2: a present, truthy header value that splits into a part count
other than two is rejected with fail(400) at once, whatever body and
query hold; the verify callback is never reached. -/
theorem malformed_header_fail400 (cfg : Config) (req : Request) (v : String)
    (hv : truthyLookup req.headers cfg.headerName = some v)
    (hlen : (jsSplit v ' ').length ≠ 2) :
    authenticate cfg req = AuthResult.fail400 := by
  rcases hs : jsSplit v ' ' with _ | ⟨a, _ | ⟨b, _ | _⟩⟩ <;>
    (simp only [authenticate, hv, hs]; try rfl)
  exact absurd (by rw [hs]; rfl) hlen

/-- C2 witness: a three-part header value is rejected 400 even with a
body credential present. -/
theorem malformed_header_fail400_wit :
    truthyLookup (some [("authorization", "Bearer a b")]) defaultConfig.headerName =
      some "Bearer a b" ∧
    (jsSplit "Bearer a b" ' ').length ≠ 2 ∧
    authenticate defaultConfig
        ⟨some [("authorization", "Bearer a b")], some [("access_token", "t1")], none⟩ =
      AuthResult.fail400 :=
  ⟨by decide, by decide,
   malformed_header_fail400 defaultConfig _ "Bearer a b" (by decide) (by decide)⟩

/-- C3 counterexample: with headerName omitted, the resolved header key
is the plain canonical authorization key, not the marker-prefixed form
the claim states. -/
theorem header_default_unprefixed_cex :
    resolveHeaderName none = "authorization" ∧
    resolveHeaderName none ≠ "x-" ++ "authorization" := by decide

/-- C3 (amended): a supplied non-empty headerName has any existing
case-insensitive X- marker stripped, is lower-cased, and the marker is
re-applied — "APIAuth" resolves to "x-apiauth" and the locator consults
exactly that key; an omitted headerName defaults to the canonical
authorization key without the marker. -/
theorem header_name_resolution (s : String) (hs : s ≠ "") :
    (mkConfig ⟨none, none, some s, none, none⟩).headerName =
      "x-" ++ jsToLower (stripX s) ∧
    (mkConfig ⟨none, none, some "APIAuth", none, none⟩).headerName = "x-apiauth" ∧
    (mkConfig ⟨none, none, none, none, none⟩).headerName = "authorization" ∧
    authenticate (mkConfig ⟨none, none, some "APIAuth", none, none⟩)
        ⟨some [("x-apiauth", "Bearer tok")], none, none⟩ = AuthResult.verify "tok" := by
  refine ⟨?_, by decide, by decide, by decide⟩
  show resolveHeaderName (some s) = "x-" ++ jsToLower (stripX s)
  simp [resolveHeaderName, getCustomHeaders, jsOrDefault, hs, x_append_ne_empty]

/-- C3 witness: the amended resolution rule applied to "APIAuth". -/
theorem header_name_resolution_wit :
    ("APIAuth" : String) ≠ "" ∧
    ((mkConfig ⟨none, none, some "APIAuth", none, none⟩).headerName =
      "x-" ++ jsToLower (stripX "APIAuth") ∧
    (mkConfig ⟨none, none, some "APIAuth", none, none⟩).headerName = "x-apiauth" ∧
    (mkConfig ⟨none, none, none, none, none⟩).headerName = "authorization" ∧
    authenticate (mkConfig ⟨none, none, some "APIAuth", none, none⟩)
        ⟨some [("x-apiauth", "Bearer tok")], none, none⟩ = AuthResult.verify "tok") :=
  ⟨by decide, header_name_resolution "APIAuth" (by decide)⟩

/-- C4 counterexample: a supplied bodyName also has a leading
case-insensitive X- marker stripped, so "X-Token" resolves to "token",
not to its plain lower-casing "x-token" as the claim states. -/
theorem field_name_strips_marker_cex :
    resolveFieldName (some "X-Token") = "token" ∧
    jsToLower "X-Token" = "x-token" ∧
    resolveFieldName (some "X-Token") ≠ jsToLower "X-Token" := by decide

/-- C4 (amended): a supplied bodyName or queryName has any existing
case-insensitive X- marker stripped and the remainder lower-cased, with
no marker re-applied, provided the stripped lower-cased remainder is
non-empty; an omitted name defaults to access_token. -/
theorem field_name_resolution (s : String) (hs : s ≠ "")
    (hf : jsToLower (stripX s) ≠ "") :
    (mkConfig ⟨none, none, none, some s, none⟩).bodyName = jsToLower (stripX s) ∧
    (mkConfig ⟨none, none, none, none, some s⟩).queryName = jsToLower (stripX s) ∧
    (mkConfig ⟨none, none, none, none, none⟩).bodyName = "access_token" ∧
    (mkConfig ⟨none, none, none, none, none⟩).queryName = "access_token" := by
  refine ⟨?_, ?_, by decide, by decide⟩ <;>
  · show resolveFieldName (some s) = jsToLower (stripX s)
    simp [resolveFieldName, getCustomHeaders, jsOrDefault, hs, hf]

/-- C4 witness: the amended resolution rule applied to "X-Token". -/
theorem field_name_resolution_wit :
    ("X-Token" : String) ≠ "" ∧ jsToLower (stripX "X-Token") ≠ "" ∧
    ((mkConfig ⟨none, none, none, some "X-Token", none⟩).bodyName =
      jsToLower (stripX "X-Token") ∧
    (mkConfig ⟨none, none, none, none, some "X-Token"⟩).queryName =
      jsToLower (stripX "X-Token") ∧
    (mkConfig ⟨none, none, none, none, none⟩).bodyName = "access_token" ∧
    (mkConfig ⟨none, none, none, none, none⟩).queryName = "access_token") :=
  ⟨by decide, by decide, field_name_resolution "X-Token" (by decide) (by decide)⟩

/-- C5: a two-part header value whose scheme case-insensitively equals
Bearer yields its second part as the token candidate — with no body or
query credential, verify receives exactly that token; a non-Bearer
scheme contributes no candidate and raises no error: the outcome equals
that of the same request stripped of its header map. -/
theorem bearer_scheme_header (cfg : Config) (req req2 : Request)
    (v s c v2 s2 c2 : String)
    (hv : truthyLookup req.headers cfg.headerName = some v)
    (hsp : jsSplit v ' ' = [s, c])
    (hber : jsToLower s = "bearer") (hc : c ≠ "")
    (hb : truthyLookup req.body cfg.bodyName = none)
    (hq : truthyLookup req.query cfg.queryName = none)
    (hv2 : truthyLookup req2.headers cfg.headerName = some v2)
    (hsp2 : jsSplit v2 ' ' = [s2, c2])
    (hber2 : jsToLower s2 ≠ "bearer") :
    authenticate cfg req = AuthResult.verify c ∧
    authenticate cfg req2 = authenticate cfg ⟨none, req2.body, req2.query⟩ := by
  constructor
  · simp only [authenticate, hv, hsp]
    rw [if_pos hber]
    simp only [bodyCheck, hb, queryCheck, hq, finishLocate]
    rw [if_neg hc]
  · simp only [authenticate, hv2, hsp2]
    rw [if_neg hber2]
    rfl

/-- C5 witness: a Bearer header alone reaches verify with its token; a
Basic header is ignored and the body credential is used instead. -/
theorem bearer_scheme_header_wit :
    truthyLookup (some [("authorization", "Bearer tok")]) defaultConfig.headerName =
      some "Bearer tok" ∧
    jsSplit "Bearer tok" ' ' = ["Bearer", "tok"] ∧
    jsToLower "Bearer" = "bearer" ∧ ("tok" : String) ≠ "" ∧
    truthyLookup (none : Option (List (String × String))) defaultConfig.bodyName = none ∧
    truthyLookup (none : Option (List (String × String))) defaultConfig.queryName = none ∧
    truthyLookup (some [("authorization", "Basic abc")]) defaultConfig.headerName =
      some "Basic abc" ∧
    jsSplit "Basic abc" ' ' = ["Basic", "abc"] ∧
    jsToLower "Basic" ≠ "bearer" ∧
    authenticate defaultConfig ⟨some [("authorization", "Bearer tok")], none, none⟩ =
      AuthResult.verify "tok" ∧
    authenticate defaultConfig
        ⟨some [("authorization", "Basic abc")], some [("access_token", "t1")], none⟩ =
      authenticate defaultConfig ⟨none, some [("access_token", "t1")], none⟩ :=
  ⟨by decide, by decide, by decide, by decide, by decide, by decide, by decide, by decide,
   by decide,
   bearer_scheme_header defaultConfig
     ⟨some [("authorization", "Bearer tok")], none, none⟩
     ⟨some [("authorization", "Basic abc")], some [("access_token", "t1")], none⟩
     "Bearer tok" "Bearer" "tok" "Basic abc" "Basic" "abc"
     (by decide) (by decide) (by decide) (by decide) (by decide) (by decide)
     (by decide) (by decide) (by decide)⟩

/-- C6: with no credential found in any location — the header yields
no candidate, body and query are absent or falsy — the outcome is a
rejection carrying a freshly built bare challenge, which under the
default configuration is the string Bearer realm="Users". -/
theorem no_credential_bare_challenge (cfg : Config) (req : Request)
    (hh : headerYieldsNothing cfg req)
    (hb : truthyLookup req.body cfg.bodyName = none)
    (hq : truthyLookup req.query cfg.queryName = none) :
    authenticate cfg req = AuthResult.failChallenge (challenge cfg none none none) ∧
    challenge defaultConfig none none none = "Bearer realm=\"Users\"" := by
  refine ⟨?_, by decide⟩
  have hfin : bodyCheck cfg req "" =
      AuthResult.failChallenge (challenge cfg none none none) := by
    simp only [bodyCheck, hb, queryCheck, hq, finishLocate]
    rw [if_true]
  rcases hh with hH | ⟨v, s, c, hv, hsp, hcase⟩
  · simp only [authenticate, hH]
    exact hfin
  · simp only [authenticate, hv, hsp]
    rcases hcase with hns | hce
    · rw [if_neg hns]
      exact hfin
    · subst hce
      rw [ite_self]
      exact hfin

/-- C6 witness: a request with only a Basic-scheme header is rejected
with the bare default challenge. -/
theorem no_credential_bare_challenge_wit :
    headerYieldsNothing defaultConfig ⟨some [("authorization", "Basic abc")], none, none⟩ ∧
    truthyLookup (none : Option (List (String × String))) defaultConfig.bodyName = none ∧
    truthyLookup (none : Option (List (String × String))) defaultConfig.queryName = none ∧
    (authenticate defaultConfig ⟨some [("authorization", "Basic abc")], none, none⟩ =
      AuthResult.failChallenge (challenge defaultConfig none none none) ∧
    challenge defaultConfig none none none = "Bearer realm=\"Users\"") :=
  ⟨Or.inr ⟨"Basic abc", "Basic", "abc", by decide, by decide, Or.inl (by decide)⟩,
   by decide, by decide,
   no_credential_bare_challenge defaultConfig
     ⟨some [("authorization", "Basic abc")], none, none⟩
     (Or.inr ⟨"Basic abc", "Basic", "abc", by decide, by decide, Or.inl (by decide)⟩)
     (by decide) (by decide)⟩

/-- An empty description renders nothing, so the challenge built from
it equals the one built with no description at all. -/
theorem challenge_empty_desc (cfg : Config) (code uri : Option String) :
    challenge cfg code (some "") uri = challenge cfg code none uri := rfl

/-- With no error and a falsy user the result handler always rejects
with some challenge, whatever the info argument is. -/
theorem verified_falsy_user_fails (cfg : Config)
    (info : Option (Sum String (List (String × String)))) :
    ∃ ch, verified cfg none none info = VerifyOutcome.fail ch := by
  rcases info with _ | ⟨s | m⟩
  · exact ⟨_, rfl⟩
  · by_cases hs : s = ""
    · subst hs
      exact ⟨_, rfl⟩
    · refine ⟨challenge cfg (some "invalid_token") (some s) none, ?_⟩
      simp only [verified]
      rw [if_neg hs]
      rfl
  · exact ⟨_, rfl⟩

/-- C7: a result-handler call with no error and a falsy identity is a
rejection; a plain-string info becomes the error_description under the
fixed error code invalid_token, so under the default configuration the
call (null, false, "bad token") yields the stated challenge string. -/
theorem invalid_token_rejection (cfg : Config) (s : String) :
    verified cfg none none (some (Sum.inl s)) =
      VerifyOutcome.fail (challenge cfg (some "invalid_token") (some s) none) ∧
    (∀ info, ∃ ch, verified cfg none none info = VerifyOutcome.fail ch) ∧
    verified defaultConfig none none (some (Sum.inl "bad token")) =
      VerifyOutcome.fail
        "Bearer realm=\"Users\", error=\"invalid_token\", error_description=\"bad token\"" := by
  refine ⟨?_, verified_falsy_user_fails cfg, by decide⟩
  by_cases hs : s = ""
  · subst hs
    rw [challenge_empty_desc]
    rfl
  · simp only [verified]
    rw [if_neg hs]
    rfl

/-- C8: a result-handler call with no error and a truthy identity
succeeds with that identity; the info map (empty when not supplied) is
augmented with the Configuration's three resolved field names under the
keys headerName, bodyName and queryName, and every other entry is
retained unchanged. -/
theorem accepted_info_augmented (cfg : Config) (u k : String)
    (m : List (String × String)) (hu : u ≠ "")
    (hk1 : k ≠ "headerName") (hk2 : k ≠ "bodyName") (hk3 : k ≠ "queryName") :
    verified cfg none (some u) (some (Sum.inr m)) =
      VerifyOutcome.success u (Sum.inr (augmentInfo cfg m)) ∧
    verified cfg none (some u) none =
      VerifyOutcome.success u (Sum.inr (augmentInfo cfg [])) ∧
    jsGet (augmentInfo cfg m) "headerName" = some cfg.headerName ∧
    jsGet (augmentInfo cfg m) "bodyName" = some cfg.bodyName ∧
    jsGet (augmentInfo cfg m) "queryName" = some cfg.queryName ∧
    jsGet (augmentInfo cfg m) k = jsGet m k := by
  refine ⟨?_, ?_, ?_, ?_, ?_, ?_⟩
  · simp only [verified, acceptOrReject]
    rw [if_neg hu]
  · simp only [verified, acceptOrReject]
    rw [if_neg hu]
  · rw [augmentInfo, jsGet_setKey_ne _ _ _ _ (by decide),
      jsGet_setKey_ne _ _ _ _ (by decide), jsGet_setKey_self]
  · rw [augmentInfo, jsGet_setKey_ne _ _ _ _ (by decide), jsGet_setKey_self]
  · rw [augmentInfo, jsGet_setKey_self]
  · rw [augmentInfo, jsGet_setKey_ne _ _ _ _ hk3, jsGet_setKey_ne _ _ _ _ hk2,
      jsGet_setKey_ne _ _ _ _ hk1]

/-- C8 witness: verify reporting (null, "alice", scope read) under the
default configuration. -/
theorem accepted_info_augmented_wit :
    ("alice" : String) ≠ "" ∧ ("scope" : String) ≠ "headerName" ∧
    ("scope" : String) ≠ "bodyName" ∧ ("scope" : String) ≠ "queryName" ∧
    (verified defaultConfig none (some "alice") (some (Sum.inr [("scope", "read")])) =
      VerifyOutcome.success "alice"
        (Sum.inr (augmentInfo defaultConfig [("scope", "read")])) ∧
    verified defaultConfig none (some "alice") none =
      VerifyOutcome.success "alice" (Sum.inr (augmentInfo defaultConfig [])) ∧
    jsGet (augmentInfo defaultConfig [("scope", "read")]) "headerName" =
      some defaultConfig.headerName ∧
    jsGet (augmentInfo defaultConfig [("scope", "read")]) "bodyName" =
      some defaultConfig.bodyName ∧
    jsGet (augmentInfo defaultConfig [("scope", "read")]) "queryName" =
      some defaultConfig.queryName ∧
    jsGet (augmentInfo defaultConfig [("scope", "read")]) "scope" =
      jsGet [("scope", "read")] "scope") :=
  ⟨by decide, by decide, by decide, by decide,
   accepted_info_augmented defaultConfig "alice" "scope" [("scope", "read")]
     (by decide) (by decide) (by decide) (by decide)⟩

/-- C9: for every configuration and every combination of optional error
code, description and URI, the built challenge string follows the spec
grammar — mandatory realm, then the optional fields scope
(space-joined, whenever a scope list is configured), error,
error_description and error_uri, in that fixed order, each rendered
only when present and non-empty. -/
theorem challenge_matches_grammar (cfg : Config) (code desc uri : Option String) :
    challenge cfg code desc uri = challengeSpec cfg code desc uri := by
  rcases cfg with ⟨realm, scope, hn, bn, qn⟩
  rcases scope with _ | sc <;> rcases code with _ | cd <;> rcases desc with _ | d <;>
    rcases uri with _ | u <;>
    simp only [challenge, challengeSpec] <;>
    (try split_ifs) <;>
    simp only [String.append_assoc, String.append_empty, String.empty_append]

/-- C10: presence is decided by value truthiness at every location — a
two-part Bearer header with an empty credentials part raises no
conflict with a body credential (verify receives the body token), a
request whose only credentials are empty strings resolves as the
no-credential bare-challenge rejection rather than fail(400), and an
empty-string body or query field value counts as no candidate at all. -/
theorem empty_string_credentials_falsy (cfg : Config) (req req2 : Request)
    (v s t : String) (mp : List (String × String)) (k : String)
    (hv : truthyLookup req.headers cfg.headerName = some v)
    (hsp : jsSplit v ' ' = [s, ""])
    (hber : jsToLower s = "bearer")
    (hb : truthyLookup req.body cfg.bodyName = some t)
    (hq : truthyLookup req.query cfg.queryName = none)
    (hv2 : truthyLookup req2.headers cfg.headerName = some v)
    (hb2 : truthyLookup req2.body cfg.bodyName = none)
    (hq2 : truthyLookup req2.query cfg.queryName = none)
    (hmp : jsGet mp k = some "") :
    authenticate cfg req = AuthResult.verify t ∧
    authenticate cfg req2 = AuthResult.failChallenge (challenge cfg none none none) ∧
    truthyLookup (some mp) k = none := by
  refine ⟨?_, ?_, ?_⟩
  · simp only [authenticate, hv, hsp]
    rw [if_pos hber]
    simp only [bodyCheck, hb, if_true]
    simp only [queryCheck, hq, finishLocate]
    rw [if_neg (truthyLookup_ne_empty hb)]
  · simp only [authenticate, hv2, hsp]
    rw [if_pos hber]
    simp only [bodyCheck, hb2, queryCheck, hq2, finishLocate]
    rw [if_true]
  · simp only [truthyLookup, hmp]
    rw [if_true]

/-- C10 witness: a "Bearer " header with an empty credentials part next
to a body token, and a request whose only credential values are empty
strings. -/
theorem empty_string_credentials_falsy_wit :
    truthyLookup (some [("authorization", "Bearer ")]) defaultConfig.headerName =
      some "Bearer " ∧
    jsSplit "Bearer " ' ' = ["Bearer", ""] ∧
    jsToLower "Bearer" = "bearer" ∧
    truthyLookup (some [("access_token", "t1")]) defaultConfig.bodyName = some "t1" ∧
    truthyLookup (none : Option (List (String × String))) defaultConfig.queryName = none ∧
    truthyLookup (some [("authorization", "Bearer ")]) defaultConfig.headerName =
      some "Bearer " ∧
    truthyLookup (some [("access_token", "")]) defaultConfig.bodyName = none ∧
    truthyLookup (some [("access_token", "")]) defaultConfig.queryName = none ∧
    jsGet [("access_token", "")] "access_token" = some "" ∧
    (authenticate defaultConfig
        ⟨some [("authorization", "Bearer ")], some [("access_token", "t1")], none⟩ =
      AuthResult.verify "t1" ∧
    authenticate defaultConfig
        ⟨some [("authorization", "Bearer ")], some [("access_token", "")],
          some [("access_token", "")]⟩ =
      AuthResult.failChallenge (challenge defaultConfig none none none) ∧
    truthyLookup (some [("access_token", "")]) "access_token" = none) :=
  ⟨by decide, by decide, by decide, by decide, by decide, by decide, by decide, by decide,
   by decide,
   empty_string_credentials_falsy defaultConfig
     ⟨some [("authorization", "Bearer ")], some [("access_token", "t1")], none⟩
     ⟨some [("authorization", "Bearer ")], some [("access_token", "")],
       some [("access_token", "")]⟩
     "Bearer " "Bearer" "t1" [("access_token", "")] "access_token"
     (by decide) (by decide) (by decide) (by decide) (by decide) (by decide)
     (by decide) (by decide) (by decide)⟩

end CustomBearer
